import Mathlib

/-!
Verification development for the hybrid retrieval and orchestration engine
of the citadel-bing-agent repository.

The embedding translates, over `List Char` based string primitives that
mirror the Python string operations used by the code:

* `src/plugins/internal_knowledge_plugin.py`, function
  `search_internal_knowledge` (greeting short-circuit, keyword extraction,
  category taxonomy, policy/product/customer scans, sentinel replies);
* `src/main_sk.py`, async generator `stream_agent_response` (query routing
  between the internal plugin and the external agent run, the poll loop for
  the external run, message extraction, response composition and the
  two-event streaming protocol).

Knowledge records (product documents, customer files) are loaded from data
files that are external to the engine; the embedding therefore takes the
loaded record set as a parameter (`KB`).  The banking policies dictionary is
hard-coded in the plugin and is reproduced verbatim.  Collaborator behaviour
(the Azure agent client) is modelled by an environment record whose fields
give the outcome of each boundary call, including the possibility that a
call raises.
-/

/-! ## Python string primitives

The plugin and orchestrator use `str.lower`, `str.strip`, `str.split()`,
`str.split(sep)`, `str.startswith`, slicing, and the `in` substring test.
Core `String` functions are not used because several of them are defined by
well-founded recursion and do not reduce in the kernel; instead each
primitive is defined structurally over `String.data`. -/

/-- Python `needle in haystack` prefix helper: `prefixB n h` is true iff
`n` is a prefix of `h`. -/
def prefixB : List Char → List Char → Bool
  | [], _ => true
  | _ :: _, [] => false
  | a :: as, b :: bs => a = b && prefixB as bs

/-- Python `needle in haystack` over char lists: contiguous substring test
(the empty needle is in every string, as in Python). -/
def infixB (n : List Char) : List Char → Bool
  | [] => n.isEmpty
  | c :: t => prefixB n (c :: t) || infixB n t

/-- Python `needle in haystack` for strings. -/
def pyIn (needle hay : String) : Bool := infixB needle.data hay.data

/-- Python `str.lower()` (ASCII case folding, which covers every string the
code manipulates). -/
def pyLower (s : String) : String := ⟨s.data.map Char.toLower⟩

/-- Characters removed by Python `str.strip()` / split on by `str.split()`. -/
def trimAux (l : List Char) : List Char := l.dropWhile Char.isWhitespace

/-- Python `str.strip()`. -/
def pyStrip (s : String) : String := ⟨((trimAux s.data).reverse.dropWhile Char.isWhitespace).reverse⟩

/-- Python `str.split()` worker: splits on whitespace runs, no empty parts. -/
def splitWsAux : List Char → List Char → List (List Char)
  | [], acc => if acc.isEmpty then [] else [acc.reverse]
  | c :: rest, acc =>
    if c.isWhitespace then
      if acc.isEmpty then splitWsAux rest [] else acc.reverse :: splitWsAux rest []
    else splitWsAux rest (c :: acc)

/-- Python `str.split()` (no separator: whitespace, empties dropped). -/
def pySplit (s : String) : List String := (splitWsAux s.data []).map (⟨·⟩)

/-- Python `str.split(sep)` worker for a single-character separator
(empty parts kept, as in Python). -/
def splitCharAux (sep : Char) : List Char → List Char → List (List Char)
  | [], acc => [acc.reverse]
  | c :: rest, acc =>
    if c = sep then acc.reverse :: splitCharAux sep rest []
    else splitCharAux sep rest (c :: acc)

/-- Python `content.split('\n')`. -/
def pyLines (s : String) : List String := (splitCharAux '\n' s.data []).map (⟨·⟩)

/-- Python `str.startswith(p)`. -/
def pyStartsWith (p s : String) : Bool := prefixB p.data s.data

/-- Python slice `s[:n]`. -/
def pyTake (s : String) (n : Nat) : String := ⟨s.data.take n⟩

/-- Python `sep.join(parts)`. -/
def pyJoin (sep : String) : List String → String
  | [] => ""
  | [x] => x
  | x :: rest => x ++ sep ++ pyJoin sep rest

/-! ## Internal knowledge plugin (`internal_knowledge_plugin.py`)

`search_internal_knowledge` is the matcher the orchestrator calls.  Product
documents and customer records are loaded from external files, so the record
set is a parameter; the policies dictionary is hard-coded in the plugin. -/

/-- Loaded knowledge records: product documents `(product_id, content)` in
load order, customer records `(customer_id, field values as strings)`. -/
structure KB where
  products : List (String × String)
  customers : List (String × List String)
deriving Repr

/-- Source line 138: the exact-match greeting list. -/
def greetings : List String := ["hi", "hello", "hey", "good morning", "good afternoon", "good evening"]

/-- Source line 139: the substring-matched simple-query list. -/
def simpleQueries : List String := ["help", "start", "begin", "what can you do", "how are you"]

/-- Source line 144: the fixed greeting reply. -/
def greetingSentinel : String := "Hello! I'm your outdoor gear assistant. I can help you find information about camping equipment, hiking gear, tents, sleeping bags, backpacks, and more. What specific products are you looking for?"

/-- Source line 154: reply when no meaningful keyword remains. -/
def noKeywordSentinel : String := "Please be more specific about what camping or outdoor gear you're looking for. I can help with tents, sleeping bags, backpacks, hiking gear, camping stoves, and more."

/-- Source line 133: reply to an empty query string. -/
def emptyQuerySentinel : String := "Please provide a search query."

/-- Source line 244: the not-found guidance sentinel (an f-string over the
original query). -/
def notFoundSentinel (query : String) : String :=
  "No specific products found for '" ++ query ++ "'. I can help you find camping gear like tents, sleeping bags, backpacks, hiking boots, camping stoves, and outdoor clothing. What are you looking for?"

/-- Source line 149: the stopword set (written as a Python set literal;
membership is all that matters, so duplicates are harmless). -/
def commonWords : List String := ["tell", "me", "about", "what", "is", "are", "the", "a", "an", "and", "or", "but", "in", "on", "at", "to", "for", "of", "with", "by", "from", "up", "about", "into", "through", "during", "before", "after", "above", "below", "between", "among", "i", "you", "he", "she", "it", "we", "they", "this", "that", "these", "those", "can", "could", "would", "should", "will", "shall", "may", "might", "must", "do", "does", "did", "have", "has", "had", "be", "am", "is", "are", "was", "were", "been", "being", "show", "find", "list", "get", "give", "looking", "need", "want", "like", "see", "view"]

/-- Source lines 157-168: the category taxonomy (category, trigger keywords). -/
def productCategories : List (String × List String) := [
  ("tent", ["tent", "tents", "shelter"]),
  ("table", ["table", "tables", "dining"]),
  ("chair", ["chair", "chairs", "seat"]),
  ("backpack", ["backpack", "backpacks", "pack", "daypack"]),
  ("sleeping", ["sleeping", "sleep"]),
  ("boots", ["boot", "boots", "shoe", "shoes", "footwear", "sandal", "sandals"]),
  ("jacket", ["jacket", "jackets"]),
  ("stove", ["stove", "stoves", "cooking", "cook", "burner"]),
  ("pants", ["pant", "pants"]),
  ("bag", ["bag", "bags"])]

/-- Source line 177: policy trigger keywords. -/
def policyKeywords : List String := ["policy", "rule", "return", "warranty", "service", "support"]

/-- Source line 231: customer trigger keywords. -/
def customerKeywords : List String := ["customer", "account", "order", "purchase"]

/-- Source lines 62-69: the hard-coded policies dictionary, in insertion
order. -/
def bankingPolicies : List (String × String) := [
  ("account_opening", "New accounts require ID verification, credit check, and minimum deposit of $100."),
  ("loan_approval", "Loans require income verification, credit score above 650, and debt-to-income ratio below 40%."),
  ("wire_transfer", "Wire transfers above $10,000 require manager approval and additional verification."),
  ("fraud_protection", "Suspicious activities trigger automatic account holds and customer notifications."),
  ("customer_service", "All customer inquiries should be handled within 24 hours with full documentation."),
  ("compliance", "All transactions must comply with BSA, AML, and KYC requirements.")]

/-- Source line 135: `query.lower().strip()`. -/
def queryLowerOf (query : String) : String := pyStrip (pyLower query)

/-- Source lines 141-143: the greeting / simple-query short-circuit test.
Disjuncts in source order: exact greeting match, simple-query substring,
at most two words one of which contains a greeting. -/
def isGreetingQuery (queryLower : String) : Bool :=
  greetings.any (fun g => queryLower = g) ||
  simpleQueries.any (fun s => pyIn s queryLower) ||
  ((pySplit queryLower).length ≤ 2 && greetings.any (fun g => pyIn g queryLower))

/-- Source line 150: keyword extraction (stopwords removed, length > 2). -/
def extractKeywords (queryLower : String) : List String :=
  (pySplit queryLower).filter (fun w => !(commonWords.contains w) && decide (w.length > 2))

/-- Source lines 171-174: categories whose trigger keywords intersect the
extracted keyword list (exact list membership, not substring). -/
def relevantCategories (keywords : List String) : List String :=
  (productCategories.filter (fun ck => ck.2.any (fun k => keywords.contains k))).map (fun ck => ck.1)

/-- Source lines 177-181: policy scan, run only when a policy trigger
keyword was extracted; an entry matches if any keyword is a substring of
its key or its text. -/
def policyResults (keywords : List String) : List String :=
  if policyKeywords.any (fun p => keywords.contains p) then
    (bankingPolicies.filter (fun kv =>
        keywords.any (fun k => pyIn k (pyLower kv.1) || pyIn k (pyLower kv.2)))).map
      (fun kv => "Policy - " ++ kv.1 ++ ": " ++ kv.2)
  else []

/-- Source lines 189-198: extract the declared `## Category` field of a
product document: find the first line whose stripped lower-case text starts
with `## category` and take the following line, stripped and lower-cased.
(The source recovers the index with `lines.index(line)`; since the matching
line is the first line satisfying the predicate, its first occurrence is at
the same position, so `findIdx?` is equivalent.) -/
def categoryOf (content : String) : Option String :=
  let lines := pyLines content
  match lines.findIdx? (fun l => pyStartsWith "## category" (pyLower (pyStrip l))) with
  | some i =>
    match lines.drop (i + 1) with
    | next :: _ => some (pyLower (pyStrip next))
    | [] => none
  | none => none

/-- Source line 212: the product name line, `content.split('\n')[1]` when it
exists, else the empty string. -/
def productNameOf (content : String) : String :=
  match pyLines content with
  | _ :: n :: _ => n
  | _ => ""

/-- Source lines 200-222: product inclusion test.  Category mode (requested
categories non-empty): the declared category field must contain a trigger
keyword of a requested category as a substring.  Free-text mode: some
keyword of length > 3 must occur in the product name line or in the
category field. -/
def shouldIncludeProduct (relCats keywords : List String) (content : String) : Bool :=
  let catM := categoryOf content
  if relCats = [] then
    let pname := pyLower (productNameOf content)
    let strong := keywords.filter (fun k => decide (k.length > 3))
    if strong = [] then false
    else
      let nameMatches := (strong.filter (fun kw => pyIn kw pname)).length
      let catMatches := (strong.filter (fun kw =>
          match catM with
          | some cm => pyIn kw cm
          | none => false)).length
      nameMatches ≥ 1 || catMatches ≥ 1
  else
    match catM with
    | some cm => relCats.any (fun c =>
        ((productCategories.lookup c).getD []).any (fun kw => pyIn kw cm))
    | none => false

/-- Source line 225: the result line appended for an included product. -/
def productLine (pid content : String) : String :=
  "Product - " ++ pid ++ ": " ++ pyTake content 300 ++ "..."

/-- Source lines 184-228: the product scan.  `m` is the running match count
(`product_matches`); the loop breaks as soon as the count reaches 8.
Returns (result lines, included products, number of products inspected). -/
def scanProducts (relCats keywords : List String) :
    List (String × String) → Nat → List String × List (String × String) × Nat
  | [], _ => ([], [], 0)
  | (pid, content) :: rest, m =>
    if shouldIncludeProduct relCats keywords content then
      if m + 1 ≥ 8 then ([productLine pid content], [(pid, content)], 1)
      else
        let r := scanProducts relCats keywords rest (m + 1)
        (productLine pid content :: r.1, (pid, content) :: r.2.1, r.2.2 + 1)
    else
      let r := scanProducts relCats keywords rest m
      (r.1, r.2.1, r.2.2 + 1)

/-- Source lines 231-239: customer scan, run only when a customer trigger
keyword was extracted; reports only the match count. -/
def customerResults (keywords : List String) (customers : List (String × List String)) : List String :=
  if customerKeywords.any (fun c => keywords.contains c) then
    let n := (customers.filter (fun cd =>
        cd.2.any (fun v => keywords.any (fun k => pyIn k (pyLower v))))).length
    if n > 0 then
      ["Found " ++ toString n ++ " matching customer records (details require specific customer ID)"]
    else []
  else []

/-- Outcome of `search_internal_knowledge`: the reply string, the number of
knowledge records inspected (policies + products + customers), the product
documents included in the result (in inclusion order), and the number of
product documents inspected. -/
structure SearchOutcome where
  reply : String
  scanned : Nat
  includedProducts : List (String × String)
  productsScanned : Nat
deriving Repr, DecidableEq

/-- Source lines 130-244: `search_internal_knowledge(query)`, instrumented
with record-scan counts.  Branches in source order: empty query, greeting
short-circuit, empty keyword list, then the policy / product / customer
scans and the join or not-found sentinel. -/
def searchInternalKnowledge (kb : KB) (query : String) : SearchOutcome :=
  if query = "" then ⟨emptyQuerySentinel, 0, [], 0⟩
  else
    let qL := queryLowerOf query
    if isGreetingQuery qL then ⟨greetingSentinel, 0, [], 0⟩
    else
      let keywords := extractKeywords qL
      if keywords = [] then ⟨noKeywordSentinel, 0, [], 0⟩
      else
        let relCats := relevantCategories keywords
        let polTriggered := policyKeywords.any (fun p => keywords.contains p)
        let polRes := policyResults keywords
        let polScanned := if polTriggered then bankingPolicies.length else 0
        let prodScan := scanProducts relCats keywords kb.products 0
        let custTriggered := customerKeywords.any (fun c => keywords.contains c)
        let custRes := customerResults keywords kb.customers
        let custScanned := if custTriggered then kb.customers.length else 0
        let results := polRes ++ prodScan.1 ++ custRes
        ⟨if results = [] then notFoundSentinel query else pyJoin "\n\n" results,
         polScanned + prodScan.2.2 + custScanned, prodScan.2.1, prodScan.2.2⟩

/-! ## Orchestrator (`main_sk.py`, `stream_agent_response`)

The generator consults the internal plugin, optionally delegates to the
external agent (submit, poll loop, message fetch/extraction), composes the
response list and emits exactly two server-sent events.  Collaborator
behaviour at each boundary call is given by a `StreamEnv`. -/

/-- A message fetched from the agent thread: its role and its content items.
A content item is `some v` when the item has a truthy `text` attribute with
value `v`, and `none` otherwise. -/
structure AgentMessage where
  role : String
  content : List (Option String)

/-- Python truthiness of the optional strings the generator tests with
`if internal_response:` / `if agent_response:`. -/
def truthyStr : Option String → Bool
  | some s => s ≠ ""
  | none => false

/-- Environment of one request: which collaborators are wired
(`internal_plugin and kernel`, `agent and ai_project_client`,
`chat_service and kernel`), the loaded knowledge records, and the outcome of
each boundary call.  `internalRaises` models the plugin call raising
(caught at source line 190), `submitOk = false` models
`create_thread_and_run` raising (caught at line 304), `pollFn k` is the
outcome of the k-th status check, `fetchedMessages` the outcome of
`messages.list` (caught at line 294), and `unanticipated` an exception that
escapes to the outer handler at line 348. -/
structure StreamEnv where
  internalWired : Bool
  agentWired : Bool
  chatWired : Bool
  kb : KB
  internalRaises : Bool
  submitOk : Bool
  pollFn : Nat → Except Unit String
  fetchedMessages : Except Unit (List AgentMessage)
  unanticipated : Bool

/-- Source line 175: keyword list used to decide whether to skip the
internal search. -/
def externalInfoKeywords : List String := ["weather", "temperature", "forecast", "news", "current", "today", "now", "latest", "recent", "stock", "price", "market"]

/-- Source line 176: `is_external_query`. -/
def isExternalQuery (msg : String) : Bool :=
  externalInfoKeywords.any (fun k => pyIn k (pyLower msg))

/-- Source lines 194-195: keyword list for `needs_web_search`. -/
def webSearchKeywords : List String := ["weather", "current", "today", "now", "latest", "recent", "news", "stock", "price", "forecast", "temperature"]

/-- Source lines 194-195: `needs_web_search`. -/
def needsWebSearch (msg : String) : Bool :=
  webSearchKeywords.any (fun k => pyIn k (pyLower msg))

/-- Source lines 172-191 (step 1): the cached internal result.  The plugin
is consulted only when wired and the query is not an external-info query;
the result counts only when truthy and not containing "not found"
(line 185); a raising plugin call is caught and leaves no result. -/
def internalResponseOf (env : StreamEnv) (msg : String) : Option String :=
  if env.internalWired && !(isExternalQuery msg) then
    if env.internalRaises then none
    else
      let ctx := (searchInternalKnowledge env.kb msg).reply
      if ctx ≠ "" ∧ !(pyIn "not found" (pyLower ctx)) then some ctx else none
  else none

/-- Source line 197: the external delegation guard,
`agent and ai_project_client and (needs_web_search or not internal_response)`. -/
def externalAttemptedOf (env : StreamEnv) (msg : String) : Bool :=
  env.agentWired && (needsWebSearch msg || !(internalResponseOf env msg).isSome)

/-- Source lines 202-216: the prompt sent to the agent, enhanced with the
internal context when one was cached. -/
def enhancedMessageOf (env : StreamEnv) (msg : String) : String :=
  match internalResponseOf env msg with
  | some ir =>
    if !(pyIn "not found" (pyLower ir)) then
      "User question: " ++ msg ++ "\n\nI have relevant internal outdoor gear information:\n" ++ ir ++ "\n\nPlease provide a comprehensive answer. If you need current web information, use your Bing search capability and include citations. Combine both internal and web information appropriately."
    else
      "User question: " ++ msg ++ "\n\nYou have access to a Bing search tool. Please use it to search for current information to answer this question. Do not say you cannot provide real-time information - instead, use your Bing search capability to find the most up-to-date information and provide it to the user with proper citations.\n\nIMPORTANT: Use the Bing search tool to get current, real-time information for this query."
  | none =>
    "User question: " ++ msg ++ "\n\nYou have access to a Bing search tool. Please use it to search for current information to answer this question. Do not say you cannot provide real-time information - instead, use your Bing search capability to find the most up-to-date information and provide it to the user with proper citations.\n\nIMPORTANT: Use the Bing search tool to get current, real-time information for this query."

/-- Source line 250: the terminal run statuses. -/
def terminalStatuses : List String := ["completed", "failed", "expired", "cancelled"]

/-- Whether an observed poll outcome is a successful check that returned a
terminal status. -/
def isTerminalOk : Except Unit String → Bool
  | .ok s => terminalStatuses.contains s
  | .error _ => false

/-- Source lines 236-262: the poll loop, returning the sequence of observed
status-check outcomes.  `elapsed` mirrors `elapsed_time` (stepping by the
2-unit `wait_interval` under the 30-unit `max_wait_time` budget); `fuel` is
a structural-recursion bound that the `elapsed < 30` guard exhausts first.
A successful check with a terminal status breaks immediately; a failed
check sleeps one interval and then breaks (source lines 257-262). -/
def pollLoopAux (pollFn : Nat → Except Unit String) : Nat → Nat → Nat → List (Except Unit String)
  | 0, _, _ => []
  | fuel + 1, k, elapsed =>
    if elapsed < 30 then
      match pollFn k with
      | .ok s =>
        if terminalStatuses.contains s then [.ok s]
        else .ok s :: pollLoopAux pollFn fuel (k + 1) (elapsed + 2)
      | .error e => [.error e]
    else []

/-- The poll loop as entered at source line 241 (`elapsed_time = 0`). -/
def pollStatusLoop (pollFn : Nat → Except Unit String) : List (Except Unit String) :=
  pollLoopAux pollFn 16 0 0

/-- Source lines 283-288: the inner content-item loop; the first item with a
truthy `text` attribute supplies the extracted value (which may be the empty
string). -/
def firstContentText (items : List (Option String)) : Option String :=
  items.findSome? id

/-- Source lines 279-290: one step of the message loop.  An assistant
message with a non-empty content list overwrites `agent_response` with its
first text item, when one exists. -/
def extractStep (m : AgentMessage) (acc : Option String) : Option String :=
  if m.role = "assistant" ∧ m.content ≠ [] then
    match firstContentText m.content with
    | some s => some s
    | none => acc
  else acc

/-- Source lines 279-290: the message loop; the outer loop breaks only once
`agent_response` is truthy. -/
def extractAssistantText : List AgentMessage → Option String → Option String
  | [], acc => acc
  | m :: rest, acc =>
    let acc2 := extractStep m acc
    if truthyStr acc2 then acc2 else extractAssistantText rest acc2

/-- Source lines 197-306 (step 2): the agent response.  It exists only when
delegation is attempted, the submit call succeeds and the message fetch
succeeds; extraction then walks the fetched messages. -/
def agentResponseOf (env : StreamEnv) (msg : String) : Option String :=
  if externalAttemptedOf env msg then
    if env.submitOk then
      match env.fetchedMessages with
      | .ok msgs => extractAssistantText msgs none
      | .error _ => none
    else none
  else none

/-- Source lines 298-299: the fragment contributed by the agent (appended
only when `agent_response` is truthy). -/
def agentFragment (env : StreamEnv) (msg : String) : List String :=
  match agentResponseOf env msg with
  | some s => if s ≠ "" then ["**AI Assistant with Bing:** " ++ s] else []
  | none => []

/-- Source lines 309-310 (step 3): the internal fragment, appended only when
`internal_response` is truthy and the response list is still empty. -/
def internalFragment (env : StreamEnv) (msg : String) (r1 : List String) : List String :=
  match internalResponseOf env msg with
  | some i => if i ≠ "" ∧ r1 = [] then ["**Internal Knowledge:** " ++ i] else []
  | none => []

/-- Steps 2-4 of response collection (step 4, the SK chat fallback, is a
`pass` in the source and contributes nothing). -/
def producedResponsesOf (env : StreamEnv) (msg : String) : List String :=
  agentFragment env msg ++ internalFragment env msg (agentFragment env msg)

/-- Source lines 326-335 (step 5): the fixed fallback reply. -/
def fallbackText : String := "Hello! I'm your outdoor gear assistant. I'm currently operating with limited capabilities, but I can still help you with:\n\n• Information about camping equipment and outdoor gear\n• Product details about tents, backpacks, hiking boots, and camping supplies\n• General outdoor activity guidance and tips\n• Equipment recommendations based on your needs\n\nFor weather information, current news, or other external information, I may need my web search capabilities to be working properly.\n\nWhat outdoor gear or camping questions can I help you with?"

/-- Source lines 325-336: the response list after the fallback step. -/
def responsesOf (env : StreamEnv) (msg : String) : List String :=
  let r := producedResponsesOf env msg
  if r = [] then [fallbackText] else r

/-- Source line 340: the apology used when the response list is empty at
join time (unreachable after the fallback step, but reproduced). -/
def apologyText : String := "I apologize, but I'm unable to process your request at the moment."

/-- Source line 340: the composed reply, a blank-line join of the response
list. -/
def finalResponseOf (env : StreamEnv) (msg : String) : String :=
  let r := responsesOf env msg
  if r ≠ [] then pyJoin "\n\n" r else apologyText

/-- One server-sent event as the generator yields it (the `annotations`
field is the constant empty list and is omitted).  `content` is absent on
the terminal event. -/
structure StreamEvent where
  content : Option String
  type : String
deriving Repr, DecidableEq

/-- Source lines 350: the error reply of the outer exception handler. -/
def errorText : String := "I'm sorry, I couldn't generate a response. Please try again."

/-- Source lines 342-353: the emitted event sequence.  The normal path
yields the composed reply then the terminal event; the outer exception
handler (an unanticipated exception anywhere in the body) yields the error
reply then the terminal event. -/
def eventsOf (env : StreamEnv) (msg : String) : List StreamEvent :=
  if env.unanticipated then
    [⟨some errorText, "completed_message"⟩, ⟨none, "stream_end"⟩]
  else
    [⟨some (finalResponseOf env msg), "completed_message"⟩, ⟨none, "stream_end"⟩]

/-- Observable trace of one request through `stream_agent_response`. -/
structure RunTrace where
  internalSearched : Bool
  internalResponse : Option String
  externalAttempted : Bool
  agentResponse : Option String
  pollsObserved : List (Except Unit String)
  producedResponses : List String
  responses : List String
  finalResponse : String
  events : List StreamEvent

/-- The whole request pipeline of `stream_agent_response`, as a trace. -/
def handleQuery (env : StreamEnv) (msg : String) : RunTrace :=
  { internalSearched := env.internalWired && !(isExternalQuery msg)
  , internalResponse := internalResponseOf env msg
  , externalAttempted := externalAttemptedOf env msg
  , agentResponse := agentResponseOf env msg
  , pollsObserved :=
      if externalAttemptedOf env msg && env.submitOk then pollStatusLoop env.pollFn else []
  , producedResponses := producedResponsesOf env msg
  , responses := responsesOf env msg
  , finalResponse := finalResponseOf env msg
  , events := eventsOf env msg }

/-! ## Concrete inputs used by witnesses and counterexamples -/

/-- An empty record set (no product or customer files loaded). -/
def emptyKB : KB := ⟨[], []⟩

/-- A product document with a declared tent category. -/
def tentProduct : String × String :=
  ("1", "# Information about product item_number: 1\nAlpine Dome Tent\n## Category\ntents\nA sturdy two-person tent for all seasons.")

/-- A product document with a declared chair category whose body mentions
the word tent. -/
def chairProduct : String × String :=
  ("2", "# Information about product item_number: 2\nCamp Comfort Chair\n## Category\nchairs\nA folding chair; pairs well with any tent.")

/-- A small record set with one tent and one chair document. -/
def kbSmall : KB := ⟨[tentProduct, chairProduct], []⟩

/-- A poll source whose every check reports a completed run. -/
def basePollFn : Nat → Except Unit String := fun _ => Except.ok "completed"

/-- Environment with no collaborator wired. -/
def envNone : StreamEnv :=
  ⟨false, false, false, emptyKB, false, false, basePollFn, Except.ok [], false⟩

/-- Environment with only the internal plugin wired, records `kbSmall`. -/
def envInternal : StreamEnv :=
  ⟨true, false, false, kbSmall, false, false, basePollFn, Except.ok [], false⟩

/-- Environment with the internal plugin and the agent wired, no records
loaded, submit succeeding and an empty message list fetched. -/
def envBoth : StreamEnv :=
  ⟨true, true, false, emptyKB, false, true, basePollFn, Except.ok [], false⟩

/-- Poll source for the single-failure scenario: the first status check
raises, every later check would report a completed run. -/
def pollFnOneFailure : Nat → Except Unit String :=
  fun k => if k = 0 then Except.error () else Except.ok "completed"

/-- Whether a terminal status is only ever observed as the last poll
outcome of a trace (i.e. the loop never re-polls after a terminal status). -/
def noEarlyTerminal : List (Except Unit String) → Bool
  | [] => true
  | r :: rest => rest.isEmpty || (!isTerminalOk r && noEarlyTerminal rest)

/-! ## Helper lemmas -/

set_option maxRecDepth 10000

/-- A string with a non-empty prefix is non-empty. -/
theorem append_ne_empty (a b : String) (h : a ≠ "") : a ++ b ≠ "" := by
  intro he
  apply h
  have hl := congrArg String.length he
  rw [String.length_append] at hl
  have h0 : ("" : String).length = 0 := rfl
  rw [h0] at hl
  have ha0 : a.length = 0 := by omega
  cases a with
  | mk d =>
    cases d with
    | nil => rfl
    | cons c t => simp [String.length] at ha0

/-- Every `needs_web_search` trigger keyword (source line 195) is also an
`external_info_keywords` skip keyword (source line 175), so a query that
triggers web search is always classified as an external-info query. -/
theorem needsWeb_imp_isExternal (msg : String) (h : needsWebSearch msg = true) :
    isExternalQuery msg = true := by
  simp only [needsWebSearch, webSearchKeywords, List.any_cons, List.any_nil,
    Bool.or_eq_true] at h
  simp only [isExternalQuery, externalInfoKeywords, List.any_cons, List.any_nil,
    Bool.or_eq_true]
  tauto

/-- A cached internal result exists only for queries not classified as
external-info queries. -/
theorem internal_isSome_not_external (env : StreamEnv) (msg : String)
    (h : (internalResponseOf env msg).isSome = true) : isExternalQuery msg = false := by
  cases hx : isExternalQuery msg with
  | false => rfl
  | true =>
    unfold internalResponseOf at h
    rw [hx] at h
    simp at h

/-- The internal and external sources never both produce a fragment in one
request: web-search intent skips the internal search, and without it the
agent is only consulted when the internal result is absent. -/
theorem not_both_fragments (env : StreamEnv) (msg : String) :
    ¬((internalResponseOf env msg).isSome = true ∧ (agentResponseOf env msg).isSome = true) := by
  rintro ⟨hi, ha⟩
  cases hatt : externalAttemptedOf env msg with
  | false =>
    unfold agentResponseOf at ha
    rw [hatt] at ha
    simp at ha
  | true =>
    unfold externalAttemptedOf at hatt
    rw [Bool.and_eq_true] at hatt
    have hor := hatt.2
    rw [Bool.or_eq_true] at hor
    rcases hor with hw | hn
    · have h1 := needsWeb_imp_isExternal msg hw
      have h2 := internal_isSome_not_external env msg hi
      rw [h1] at h2
      cases h2
    · rw [hi] at hn
      simp at hn

/-- The agent fragment list is empty or a single prefixed fragment. -/
theorem agentFragment_cases (env : StreamEnv) (msg : String) :
    agentFragment env msg = [] ∨
    ∃ s, agentFragment env msg = ["**AI Assistant with Bing:** " ++ s] := by
  unfold agentFragment
  cases agentResponseOf env msg with
  | none => exact Or.inl rfl
  | some s =>
    by_cases hs : s = ""
    · exact Or.inl (by simp [hs])
    · exact Or.inr ⟨s, by simp [hs]⟩

/-- The internal fragment list over an empty prior list is empty or a single
prefixed fragment. -/
theorem internalFragment_nil_cases (env : StreamEnv) (msg : String) :
    internalFragment env msg [] = [] ∨
    ∃ i, internalFragment env msg [] = ["**Internal Knowledge:** " ++ i] := by
  unfold internalFragment
  cases internalResponseOf env msg with
  | none => exact Or.inl rfl
  | some i =>
    by_cases hie : i = ""
    · exact Or.inl (by simp [hie])
    · exact Or.inr ⟨i, by simp [hie]⟩

/-- The internal fragment is never appended once the response list is
non-empty (source line 309, `if internal_response and not responses`). -/
theorem internalFragment_of_ne (env : StreamEnv) (msg : String) (r1 : List String)
    (h : r1 ≠ []) : internalFragment env msg r1 = [] := by
  unfold internalFragment
  cases internalResponseOf env msg with
  | none => rfl
  | some i => simp [h]

/-- After the fallback step the response list always holds exactly one
fragment, and that fragment is a non-empty string. -/
theorem responses_singleton (env : StreamEnv) (msg : String) :
    ∃ x, responsesOf env msg = [x] ∧ x ≠ "" := by
  unfold responsesOf producedResponsesOf
  rcases agentFragment_cases env msg with haf | ⟨s, haf⟩
  · rw [haf]
    rcases internalFragment_nil_cases env msg with hif | ⟨i, hif⟩
    · rw [hif]
      exact ⟨fallbackText, by simp, by decide⟩
    · rw [hif]
      exact ⟨"**Internal Knowledge:** " ++ i, by simp,
        append_ne_empty "**Internal Knowledge:** " i (by decide)⟩
  · rw [haf, internalFragment_of_ne env msg _ (by simp)]
    exact ⟨"**AI Assistant with Bing:** " ++ s, by simp,
      append_ne_empty "**AI Assistant with Bing:** " s (by decide)⟩

/-- Every product the scan includes passed the inclusion test. -/
theorem scanProducts_sound (relCats keywords : List String) :
    ∀ (prods : List (String × String)) (m : Nat) (p : String × String),
      p ∈ (scanProducts relCats keywords prods m).2.1 →
      shouldIncludeProduct relCats keywords p.2 = true := by
  intro prods
  induction prods with
  | nil =>
    intro m p hp
    simp [scanProducts] at hp
  | cons hd tl ih =>
    intro m p hp
    obtain ⟨pid, content⟩ := hd
    by_cases hinc : shouldIncludeProduct relCats keywords content = true
    · by_cases hm : m + 1 ≥ 8
      · simp [scanProducts, hinc, hm] at hp
        rw [hp]
        exact hinc
      · simp [scanProducts, hinc, hm] at hp
        rcases hp with rfl | hp'
        · exact hinc
        · exact ih (m + 1) p hp'
    · simp [scanProducts, hinc] at hp
      exact ih m p hp

/-- The scan includes at most `8 - m` further products. -/
theorem scanProducts_length (relCats keywords : List String) :
    ∀ (prods : List (String × String)) (m : Nat), m < 8 →
      (scanProducts relCats keywords prods m).2.1.length + m ≤ 8 := by
  intro prods
  induction prods with
  | nil =>
    intro m hm
    simp [scanProducts]
    omega
  | cons hd tl ih =>
    intro m hm
    obtain ⟨pid, content⟩ := hd
    by_cases hinc : shouldIncludeProduct relCats keywords content = true
    · by_cases hcap : m + 1 ≥ 8
      · simp [scanProducts, hinc, hcap]
        omega
      · have := ih (m + 1) (by omega)
        simp [scanProducts, hinc, hcap]
        omega
    · have := ih m hm
      simp [scanProducts, hinc]
      omega

/-- The included products form a subsequence of the scanned product list,
in scan order. -/
theorem scanProducts_sublist (relCats keywords : List String) :
    ∀ (prods : List (String × String)) (m : Nat),
      (scanProducts relCats keywords prods m).2.1.Sublist prods := by
  intro prods
  induction prods with
  | nil =>
    intro m
    simp [scanProducts]
  | cons hd tl ih =>
    intro m
    obtain ⟨pid, content⟩ := hd
    by_cases hinc : shouldIncludeProduct relCats keywords content = true
    · by_cases hcap : m + 1 ≥ 8
      · simp [scanProducts, hinc, hcap]
      · simp [scanProducts, hinc, hcap]
        exact ih (m + 1)
    · simp [scanProducts, hinc]
      exact (ih m).cons (pid, content)

/-- The scan inspects at most the whole product list, and stops early only
because the inclusion cap was reached. -/
theorem scanProducts_early_stop (relCats keywords : List String) :
    ∀ (prods : List (String × String)) (m : Nat), m < 8 →
      (scanProducts relCats keywords prods m).2.2 ≤ prods.length ∧
      ((scanProducts relCats keywords prods m).2.2 < prods.length →
        (scanProducts relCats keywords prods m).2.1.length + m = 8) := by
  intro prods
  induction prods with
  | nil =>
    intro m hm
    simp [scanProducts]
  | cons hd tl ih =>
    intro m hm
    obtain ⟨pid, content⟩ := hd
    by_cases hinc : shouldIncludeProduct relCats keywords content = true
    · by_cases hcap : m + 1 ≥ 8
      · simp [scanProducts, hinc, hcap]
        omega
      · have := ih (m + 1) (by omega)
        simp [scanProducts, hinc, hcap] at this ⊢
        omega
    · have := ih m hm
      simp [scanProducts, hinc] at this ⊢
      omega

/-- In category mode an included product always carries a declared category
field containing a trigger keyword of a requested category. -/
theorem shouldInclude_category (relCats keywords : List String) (content : String)
    (hrel : relCats ≠ []) (h : shouldIncludeProduct relCats keywords content = true) :
    ∃ cm, categoryOf content = some cm ∧
      relCats.any (fun c =>
        ((productCategories.lookup c).getD []).any (fun kw => pyIn kw cm)) = true := by
  unfold shouldIncludeProduct at h
  rw [if_neg hrel] at h
  cases hcat : categoryOf content with
  | none =>
    rw [hcat] at h
    cases h
  | some cm =>
    rw [hcat] at h
    exact ⟨cm, rfl, h⟩

/-- A non-empty requested-category list needs a non-empty keyword list. -/
theorem relCats_ne_imp_keywords_ne (keywords : List String)
    (h : relevantCategories keywords ≠ []) : keywords ≠ [] := by
  intro hk
  apply h
  rw [hk]
  decide

/-- Unfolding of `search_internal_knowledge` on its main branch: with a
non-empty query that is neither a greeting nor keyword-free, the outcome
fields coming from the product scan. -/
theorem search_scan_fields (kb : KB) (query : String) (hq : query ≠ "")
    (hg : isGreetingQuery (queryLowerOf query) = false)
    (hk : extractKeywords (queryLowerOf query) ≠ []) :
    (searchInternalKnowledge kb query).includedProducts =
      (scanProducts (relevantCategories (extractKeywords (queryLowerOf query)))
        (extractKeywords (queryLowerOf query)) kb.products 0).2.1 ∧
    (searchInternalKnowledge kb query).productsScanned =
      (scanProducts (relevantCategories (extractKeywords (queryLowerOf query)))
        (extractKeywords (queryLowerOf query)) kb.products 0).2.2 := by
  unfold searchInternalKnowledge
  rw [if_neg hq]
  simp only [hg, Bool.false_eq_true, if_false, hk, ite_false]
  constructor <;> first | rfl | trivial

/-- A query all of whose tokens are stopwords yields no keywords. -/
theorem keywords_nil_of_stopwords (qL : String)
    (h : ∀ w ∈ pySplit qL, w ∈ commonWords) : extractKeywords qL = [] := by
  apply List.filter_eq_nil_iff.mpr
  intro w hw
  simp
  intro hn
  exact absurd (h w hw) hn

/-- The poll loop makes at most `(31 - elapsed) / 2` further status checks. -/
theorem pollLoopAux_length_le (pollFn : Nat → Except Unit String) :
    ∀ (fuel k elapsed : Nat),
      2 * (pollLoopAux pollFn fuel k elapsed).length ≤ 31 - elapsed := by
  intro fuel
  induction fuel with
  | zero =>
    intro k e
    simp [pollLoopAux]
  | succ fuel ih =>
    intro k e
    by_cases he : e < 30
    · rw [pollLoopAux, if_pos he]
      cases hp : pollFn k with
      | error err =>
        simp
        omega
      | ok s =>
        by_cases ht : s ∈ terminalStatuses
        · simp [ht]
          omega
        · have := ih (k + 1) (e + 2)
          simp [ht]
          omega
    · rw [pollLoopAux, if_neg he]
      simp

/-- The poll loop never re-polls after observing a terminal status. -/
theorem pollLoopAux_noEarly (pollFn : Nat → Except Unit String) :
    ∀ (fuel k elapsed : Nat),
      noEarlyTerminal (pollLoopAux pollFn fuel k elapsed) = true := by
  intro fuel
  induction fuel with
  | zero =>
    intro k e
    rfl
  | succ fuel ih =>
    intro k e
    by_cases he : e < 30
    · rw [pollLoopAux, if_pos he]
      cases hp : pollFn k with
      | error err => rfl
      | ok s =>
        by_cases ht : s ∈ terminalStatuses
        · simp [ht, noEarlyTerminal]
        · have := ih (k + 1) (e + 2)
          simp [ht, noEarlyTerminal, isTerminalOk, this]
    · rw [pollLoopAux, if_neg he]
      rfl

/-! ## Claim theorems -/

/-- C1: for every environment (including one where an unanticipated
exception reaches the outer handler) and every user message, the streaming
emitter yields exactly two events in order: a `completed_message` event
carrying a complete reply, then a `stream_end` event; no exception
propagates (the event list is total). -/
theorem stream_two_events (env : StreamEnv) (msg : String) :
    ∃ c, (handleQuery env msg).events =
      [⟨some c, "completed_message"⟩, ⟨none, "stream_end"⟩] := by
  show ∃ c, eventsOf env msg = _
  unfold eventsOf
  by_cases h : env.unanticipated = true
  · exact ⟨errorText, by rw [if_pos h]⟩
  · exact ⟨finalResponseOf env msg, by rw [if_neg h]⟩

/-- C2 counterexample: the claim asserts that an internal-knowledge fragment
and an external-service fragment may both appear in one merged reply; in
fact the two fragments are never both produced in any request (every
web-search trigger keyword also causes the internal search to be skipped,
and without such a keyword the agent is only consulted when the internal
result is absent). -/
theorem merged_reply_impossible :
    ¬ ∃ (env : StreamEnv) (msg : String),
        (handleQuery env msg).internalResponse.isSome = true ∧
        (handleQuery env msg).agentResponse.isSome = true := by
  rintro ⟨env, msg, hi, ha⟩
  exact not_both_fragments env msg ⟨hi, ha⟩

/-- C2 amended: the final reply always consists of exactly one fragment
(the blank-line join is over a singleton list), and the internal and
external fragments are mutually exclusive, so no merged two-fragment reply
ever occurs. -/
theorem compose_single_fragment (env : StreamEnv) (msg : String) :
    (handleQuery env msg).responses.length = 1 ∧
    (handleQuery env msg).finalResponse = pyJoin "\n\n" ((handleQuery env msg).responses) ∧
    ¬((handleQuery env msg).internalResponse.isSome = true ∧
      (handleQuery env msg).agentResponse.isSome = true) := by
  obtain ⟨x, hx, _⟩ := responses_singleton env msg
  refine ⟨?_, ?_, not_both_fragments env msg⟩
  · show (responsesOf env msg).length = 1
    rw [hx]
    rfl
  · show finalResponseOf env msg = pyJoin "\n\n" (responsesOf env msg)
    unfold finalResponseOf
    rw [hx]
    simp

/-- C3 counterexample: the query "current tent models" contains the
real-time trigger "current" but also the non-trigger keywords "tent" and
"models", yet with the plugin wired the internal search is skipped — the
claim that internal search is skipped only for purely real-time queries
with no other keywords is false. -/
theorem internal_skipped_with_other_keywords :
    envInternal.internalWired = true ∧
    extractKeywords (queryLowerOf "current tent models") = ["current", "tent", "models"] ∧
    externalInfoKeywords.contains "tent" = false ∧
    externalInfoKeywords.contains "models" = false ∧
    (handleQuery envInternal "current tent models").internalSearched = false := by
  exact ⟨rfl, by decide, by decide, by decide, by decide⟩

/-- C3 amended: with the plugin wired, the internal lookup runs if and only
if the query contains no real-time trigger keyword at all (regardless of
other keywords); and the external-delegation decision is a function of the
completed internal lookup result (internal-before-external sequencing). -/
theorem internal_search_gate (env : StreamEnv) (msg : String)
    (hw : env.internalWired = true) :
    ((handleQuery env msg).internalSearched = true ↔
      ∀ k ∈ externalInfoKeywords, pyIn k (pyLower msg) = false) ∧
    (handleQuery env msg).externalAttempted =
      (env.agentWired && (needsWebSearch msg ||
        !((handleQuery env msg).internalResponse).isSome)) := by
  constructor
  · show (env.internalWired && !(isExternalQuery msg)) = true ↔ _
    rw [hw]
    simp [isExternalQuery]
  · rfl

/-- C3 witness: the amended theorem applied to the wired environment and
the query "hello". -/
theorem internal_search_gate_w :
    (((handleQuery envInternal "hello").internalSearched = true ↔
      ∀ k ∈ externalInfoKeywords, pyIn k (pyLower "hello") = false)) ∧
    (handleQuery envInternal "hello").externalAttempted =
      (envInternal.agentWired && (needsWebSearch "hello" ||
        !((handleQuery envInternal "hello").internalResponse).isSome)) :=
  internal_search_gate envInternal "hello" rfl

/-- C4: code bug.  On the query "trampoline" with no product or customer
records, the internal search misses and returns the "No specific products
found ..." guidance sentinel; the orchestrator's usability test looks for
the substring "not found", which the sentinel does not contain, so the
sentinel is cached as a usable internal result and — although the agent is
fully wired and the query has no real-time keyword — no external run is
attempted, contradicting the claim (and the code's own intent comment
"or when internal knowledge didn't help"). -/
theorem miss_sentinel_blocks_external :
    (searchInternalKnowledge emptyKB "trampoline").reply = notFoundSentinel "trampoline" ∧
    pyIn "not found" (pyLower (notFoundSentinel "trampoline")) = false ∧
    isExternalQuery "trampoline" = false ∧
    envBoth.agentWired = true ∧
    envBoth.submitOk = true ∧
    (handleQuery envBoth "trampoline").internalResponse =
      some (notFoundSentinel "trampoline") ∧
    (handleQuery envBoth "trampoline").externalAttempted = false := by
  exact ⟨by decide, by decide, by decide, rfl, rfl, by decide, by decide⟩

/-- C5: code bug.  When the first status check of the poll loop fails, the
loop exits immediately after a single sleep (the except branch ends in
`break`, contradicting its own comment "just wait a bit and continue"): the
observed trace is exactly one failed check, with no re-poll even though the
very next check would have returned a terminal "completed" status. -/
theorem single_poll_failure_aborts :
    pollStatusLoop pollFnOneFailure = [Except.error ()] ∧
    pollFnOneFailure 1 = Except.ok "completed" ∧
    terminalStatuses.contains "completed" = true :=
  ⟨rfl, rfl, by decide⟩

/-- C6 counterexample: the tokens of "tell me" all lie in the stopword set,
yet the matcher returns the "please be more specific" keyword-guidance
sentinel, not the fixed greeting sentinel the claim names (records scanned
is still zero). -/
theorem stopword_query_other_sentinel :
    (∀ w ∈ pySplit (queryLowerOf "tell me"), w ∈ commonWords) ∧
    searchInternalKnowledge kbSmall "tell me" = ⟨noKeywordSentinel, 0, [], 0⟩ ∧
    noKeywordSentinel ≠ greetingSentinel := by
  exact ⟨by decide, by decide, by decide⟩

/-- C6 amended: every non-empty query all of whose tokens are stopwords
scans zero knowledge records and returns one of the two fixed sentinels —
the greeting sentinel when the greeting/simple-query check fires, and
otherwise the "please be more specific" keyword-guidance sentinel. -/
theorem stopword_queries_zero_scan (kb : KB) (query : String) (hq : query ≠ "")
    (h : ∀ w ∈ pySplit (queryLowerOf query), w ∈ commonWords) :
    (searchInternalKnowledge kb query).scanned = 0 ∧
    ((searchInternalKnowledge kb query).reply = greetingSentinel ∨
     (searchInternalKnowledge kb query).reply = noKeywordSentinel) := by
  have hk : extractKeywords (queryLowerOf query) = [] := keywords_nil_of_stopwords _ h
  unfold searchInternalKnowledge
  rw [if_neg hq]
  by_cases hg : isGreetingQuery (queryLowerOf query) = true
  · simp [hg]
  · simp [hg, hk]

/-- C6 witness: the amended theorem applied to the query "tell me" over the
small record set. -/
theorem stopword_queries_zero_scan_w :
    (searchInternalKnowledge kbSmall "tell me").scanned = 0 ∧
    ((searchInternalKnowledge kbSmall "tell me").reply = greetingSentinel ∨
     (searchInternalKnowledge kbSmall "tell me").reply = noKeywordSentinel) :=
  stopword_queries_zero_scan kbSmall "tell me" (by decide) (by decide)

/-- C7: in category mode (the query's keywords trigger at least one
requested category) every product document included in the result has a
declared category field containing a trigger keyword of a requested
category (so no document lacking the field, and no document merely
mentioning the word in its body, is returned); at most 8 products are
included; the result preserves scan order; and the scan stops early only
because the cap of 8 was reached. -/
theorem category_mode_products (kb : KB) (query : String) (hq : query ≠ "")
    (hg : isGreetingQuery (queryLowerOf query) = false)
    (hc : relevantCategories (extractKeywords (queryLowerOf query)) ≠ []) :
    (∀ p ∈ (searchInternalKnowledge kb query).includedProducts,
        ∃ cm, categoryOf p.2 = some cm ∧
          (relevantCategories (extractKeywords (queryLowerOf query))).any
            (fun c => ((productCategories.lookup c).getD []).any (fun kw => pyIn kw cm)) = true) ∧
    (searchInternalKnowledge kb query).includedProducts.length ≤ 8 ∧
    (searchInternalKnowledge kb query).includedProducts.Sublist kb.products ∧
    ((searchInternalKnowledge kb query).productsScanned < kb.products.length →
      (searchInternalKnowledge kb query).includedProducts.length = 8) := by
  have hk : extractKeywords (queryLowerOf query) ≠ [] :=
    relCats_ne_imp_keywords_ne _ hc
  obtain ⟨hincl, hscan⟩ := search_scan_fields kb query hq hg hk
  rw [hincl, hscan]
  refine ⟨?_, ?_, ?_, ?_⟩
  · intro p hp
    exact shouldInclude_category _ _ _ hc
      (scanProducts_sound _ _ kb.products 0 p hp)
  · have := scanProducts_length (relevantCategories (extractKeywords (queryLowerOf query)))
      (extractKeywords (queryLowerOf query)) kb.products 0 (by omega)
    omega
  · exact scanProducts_sublist _ _ kb.products 0
  · intro hlt
    have := (scanProducts_early_stop (relevantCategories (extractKeywords (queryLowerOf query)))
      (extractKeywords (queryLowerOf query)) kb.products 0 (by omega)).2 hlt
    omega

/-- C7 witness: the theorem applied to the query "tent" over a record set
holding one tent document and one chair document whose body mentions the
word tent. -/
theorem category_mode_products_w :
    (relevantCategories (extractKeywords (queryLowerOf "tent")) ≠ []) ∧
    ((∀ p ∈ (searchInternalKnowledge kbSmall "tent").includedProducts,
        ∃ cm, categoryOf p.2 = some cm ∧
          (relevantCategories (extractKeywords (queryLowerOf "tent"))).any
            (fun c => ((productCategories.lookup c).getD []).any (fun kw => pyIn kw cm)) = true) ∧
    (searchInternalKnowledge kbSmall "tent").includedProducts.length ≤ 8 ∧
    (searchInternalKnowledge kbSmall "tent").includedProducts.Sublist kbSmall.products ∧
    ((searchInternalKnowledge kbSmall "tent").productsScanned < kbSmall.products.length →
      (searchInternalKnowledge kbSmall "tent").includedProducts.length = 8)) :=
  ⟨by decide, category_mode_products kbSmall "tent" (by decide) (by decide) (by decide)⟩

/-- C8: the poll loop makes at most 15 status checks (2-unit interval under
the 30-unit budget, so total sleep time at most 30), and a successful check
that observes a terminal status is always the last element of the observed
trace — the loop exits immediately and never re-polls after a terminal
status, so the observed status never regresses from terminal. -/
theorem poll_loop_budget (pollFn : Nat → Except Unit String) :
    (pollStatusLoop pollFn).length ≤ 15 ∧
    2 * (pollStatusLoop pollFn).length ≤ 30 ∧
    noEarlyTerminal (pollStatusLoop pollFn) = true := by
  unfold pollStatusLoop
  have h := pollLoopAux_length_le pollFn 16 0 0
  exact ⟨by omega, by omega, pollLoopAux_noEarly pollFn 16 0 0⟩

/-- C9: when no response fragment is produced (and no unanticipated
exception occurred) the composed reply is exactly the fixed fallback text
and the two emitted events carry it; and on every input whatsoever the
`completed_message` event carries a non-empty reply. -/
theorem compose_fallback_nonempty (env : StreamEnv) (msg : String) :
    ((env.unanticipated = false ∧ (handleQuery env msg).producedResponses = []) →
      (handleQuery env msg).finalResponse = fallbackText ∧
      (handleQuery env msg).events =
        [⟨some fallbackText, "completed_message"⟩, ⟨none, "stream_end"⟩]) ∧
    ∃ c, ((handleQuery env msg).events).head? = some ⟨some c, "completed_message"⟩ ∧ c ≠ "" := by
  constructor
  · rintro ⟨hu, hp⟩
    have hp' : producedResponsesOf env msg = [] := hp
    have hr : responsesOf env msg = [fallbackText] := by
      unfold responsesOf
      rw [hp']
      rfl
    have hf : finalResponseOf env msg = fallbackText := by
      unfold finalResponseOf
      rw [hr, if_pos (List.cons_ne_nil _ _)]
      rfl
    refine ⟨hf, ?_⟩
    show eventsOf env msg = _
    unfold eventsOf
    rw [if_neg (by rw [hu]; exact Bool.false_ne_true), hf]
  · by_cases h : env.unanticipated = true
    · refine ⟨errorText, ?_, by decide⟩
      show (eventsOf env msg).head? = _
      unfold eventsOf
      rw [if_pos h]
      rfl
    · obtain ⟨x, hx, hxne⟩ := responses_singleton env msg
      have hf : finalResponseOf env msg = x := by
        unfold finalResponseOf
        rw [hx, if_pos (List.cons_ne_nil _ _)]
        rfl
      refine ⟨x, ?_, hxne⟩
      show (eventsOf env msg).head? = _
      unfold eventsOf
      rw [if_neg h, hf]
      rfl

/-- C9 witness: the theorem applied to the unwired environment and the
input "hi": every source misses, the reply is the fixed fallback and the
event pair carries it. -/
theorem compose_fallback_nonempty_w :
    ((handleQuery envNone "hi").finalResponse = fallbackText ∧
     (handleQuery envNone "hi").events =
       [⟨some fallbackText, "completed_message"⟩, ⟨none, "stream_end"⟩]) ∧
    ∃ c, ((handleQuery envNone "hi").events).head? = some ⟨some c, "completed_message"⟩ ∧ c ≠ "" :=
  ⟨(compose_fallback_nonempty envNone "hi").1 ⟨rfl, rfl⟩,
   (compose_fallback_nonempty envNone "hi").2⟩

/-- C10: any non-empty query whose lower-cased (stripped) text contains one
of the substrings "help", "start", "begin", "what can you do" or
"how are you" anywhere is short-circuited to the fixed greeting reply with
zero records scanned and no product included, whatever records are loaded. -/
theorem simple_query_shortcircuit (kb : KB) (query : String) (hq : query ≠ "")
    (h : simpleQueries.any (fun s => pyIn s (queryLowerOf query)) = true) :
    searchInternalKnowledge kb query = ⟨greetingSentinel, 0, [], 0⟩ := by
  have hg : isGreetingQuery (queryLowerOf query) = true := by
    unfold isGreetingQuery
    rw [h]
    simp
  unfold searchInternalKnowledge
  rw [if_neg hq]
  simp [hg]

/-- C10 witness: the theorem applied to "help me find tents" over a record
set containing a tent document — the greeting wins over category matching. -/
theorem simple_query_shortcircuit_w :
    simpleQueries.any (fun s => pyIn s (queryLowerOf "help me find tents")) = true ∧
    searchInternalKnowledge kbSmall "help me find tents" = ⟨greetingSentinel, 0, [], 0⟩ :=
  ⟨by decide, simple_query_shortcircuit kbSmall "help me find tents" (by decide) (by decide)⟩
